import Mathlib

/-!
Shallow embedding of the reminder scheduling and delivery core of
`src/bot.py` (interview-reminder Telegram bot backed by a Google
Sheet).  Timestamps are modelled as `Int` seconds in the fixed time
zone (Asia/Tashkent has no DST, so wall-clock arithmetic of the
source's `timedelta` equals arithmetic on seconds).  Sheet cells are
modelled as `Option String` / `String`; the serialized
`sent_reminders` JSON object is modelled as a record of three
`Option Int` entries (`null` = `none`).  Exceptions in the Python are
modelled by early return of the unchanged state, and the fallibility
of the outbound Telegram send by a boolean oracle `sendOk`.
-/

namespace HelpBoot

/-- Column indices from the constants block of `bot.py`. -/
def COLUMN_DAY_BEFORE : Nat := 9

/-- Column of the `today` (at-time) outcome cell. -/
def COLUMN_TODAY : Nat := 11

/-- Column of the `hour_before` outcome cell. -/
def COLUMN_HOUR_BEFORE : Nat := 10

/-- Column holding the bound recipient chat id. -/
def COLUMN_CHAT_ID : Nat := 15

/-- Column holding the serialized reminder schedule JSON. -/
def COLUMN_SENT_REMINDERS : Nat := 16

/-- The three reminder kinds, named as the JSON keys in `bot.py`. -/
inductive ReminderKind
  | day_before
  | hour_before
  | today
deriving DecidableEq, Repr

/-- The fixed iteration order of `check_reminders`:
`for reminder_type in ['day_before', 'hour_before', 'today']`. -/
def kindOrder : List ReminderKind :=
  [ReminderKind.day_before, ReminderKind.hour_before, ReminderKind.today]

/-- Outcome column selected for a kind in `check_reminders`
(`day_before` → 9, `hour_before` → 10, else → 11). -/
def reminderColumnOf : ReminderKind → Nat
  | ReminderKind.day_before => COLUMN_DAY_BEFORE
  | ReminderKind.hour_before => COLUMN_HOUR_BEFORE
  | ReminderKind.today => COLUMN_TODAY

/-- The parsed `sent_reminders` JSON object: one nullable scheduled
instant (seconds) per reminder kind. -/
structure Schedule where
  day_before : Option Int
  hour_before : Option Int
  today : Option Int
deriving DecidableEq, Repr

/-- Read one kind's entry (`reminders[reminder_type]`). -/
def Schedule.get : Schedule → ReminderKind → Option Int
  | s, ReminderKind.day_before => s.day_before
  | s, ReminderKind.hour_before => s.hour_before
  | s, ReminderKind.today => s.today

/-- Overwrite one kind's entry (`reminders[reminder_type] = None`). -/
def Schedule.set (s : Schedule) : ReminderKind → Option Int → Schedule
  | ReminderKind.day_before, v => { s with day_before := v }
  | ReminderKind.hour_before, v => { s with hour_before := v }
  | ReminderKind.today, v => { s with today := v }

/-- One sheet row, restricted to the cells the core reads/writes.
`appointment` is the parsed date+time pair (seconds); `none` models a
missing or unparseable date/time.  The three `_col` fields are the
outcome cells of columns 9/10/11. -/
structure RecordState where
  chat_id : Option String
  appointment : Option Int
  location : String
  sent_reminders : Option Schedule
  day_before_col : String
  hour_before_col : String
  today_col : String
deriving DecidableEq, Repr

/-- `sheet.update_cell(row, col, v)` for the three outcome columns;
any other column index leaves the modelled row unchanged. -/
def RecordState.updateCol (r : RecordState) (col : Nat) (v : String) : RecordState :=
  if col = COLUMN_DAY_BEFORE then { r with day_before_col := v }
  else if col = COLUMN_HOUR_BEFORE then { r with hour_before_col := v }
  else if col = COLUMN_TODAY then { r with today_col := v }
  else r

/-- Read one of the three outcome cells by column index. -/
def RecordState.readCol (r : RecordState) (col : Nat) : String :=
  if col = COLUMN_DAY_BEFORE then r.day_before_col
  else if col = COLUMN_HOUR_BEFORE then r.hour_before_col
  else if col = COLUMN_TODAY then r.today_col
  else ""

/-! ## Schedule Calculator (`handle_contact`, lines 139-161) -/

/-- `timedelta(days=n).total_seconds()`. -/
def timedelta_days (n : Int) : Int := n * 86400

/-- `timedelta(hours=n).total_seconds()`. -/
def timedelta_hours (n : Int) : Int := n * 3600

/-- The `sent_reminders` object built in `handle_contact`:
`day_before = interview_date - timedelta(days=1)`,
`hour_before = interview_date - timedelta(hours=1)`,
`today = interview_date`. -/
def computeSchedule (interview_date : Int) : Schedule :=
  { day_before := some (interview_date - timedelta_days 1)
    hour_before := some (interview_date - timedelta_hours 1)
    today := some interview_date }

/-- State transition of `handle_contact` on the matched row, after the
phone lookup succeeded: the chat id cell is written first; then, if
the date/time cells are present and parseable, the schedule is
recomputed and written to `COLUMN_SENT_REMINDERS` (overwriting any
previous value).  The returned flag records whether the schedule write
happened. -/
def handle_contact (chat : String) (r : RecordState) : RecordState × Bool :=
  let r1 := { r with chat_id := some chat }
  match r.appointment with
  | none => (r1, false)
  | some interview_date =>
      ({ r1 with sent_reminders := some (computeSchedule interview_date) }, true)

/-! ## Reminder Poller (`check_reminders`, lines 201-266) -/

/-- The string written to an outcome column on dispatch. -/
def sentMarker : String := "Отправлено"

/-- One observable side effect of a poll tick on one row, in program
order: invoking `send_reminder` (with its success flag), writing an
outcome cell, and writing the serialized schedule back. -/
inductive Effect
  | dispatch (k : ReminderKind) (ok : Bool)
  | writeCell (col : Nat) (v : String)
  | writeSchedule (s : Schedule)
deriving DecidableEq, Repr

/-- The due test of `check_reminders`: entry non-null and
`abs((current_time - scheduled_time).total_seconds()) <= 120`. -/
def dueAt (now : Int) : Option Int → Bool
  | none => false
  | some scheduled_time => (now - scheduled_time).natAbs ≤ 120

/-- The inner `for reminder_type in [...]` loop of `check_reminders`
for one row: skip kinds that are null or outside the window; at the
first due kind invoke `send_reminder`; on success write the outcome
cell, null the entry, write the schedule back and `break`; on a send
failure the raised exception aborts the row (caught by the per-row
handler), leaving the row unchanged. -/
def runKinds (now : Int) (sendOk : ReminderKind → Bool) (r : RecordState)
    (sched : Schedule) : List ReminderKind → RecordState × List Effect
  | [] => (r, [])
  | k :: rest =>
    if dueAt now (sched.get k) then
      if sendOk k then
        let sched' := sched.set k none
        let r1 := r.updateCol (reminderColumnOf k) sentMarker
        ({ r1 with sent_reminders := some sched' },
         [Effect.dispatch k true,
          Effect.writeCell (reminderColumnOf k) sentMarker,
          Effect.writeSchedule sched'])
      else
        (r, [Effect.dispatch k false])
    else
      runKinds now sendOk r sched rest

/-- Processing of one row inside the `for row, chat_id in ...` loop:
rows with an empty chat id cell or the header value are skipped, as
are rows with an empty `sent_reminders` cell; otherwise the kind loop
runs. -/
def processRecord (now : Int) (sendOk : ReminderKind → Bool) (r : RecordState) :
    RecordState × List Effect :=
  match r.chat_id with
  | none => (r, [])
  | some cid =>
    if cid = "chat_id" then (r, [])
    else
      match r.sent_reminders with
      | none => (r, [])
      | some sched => runKinds now sendOk r sched kindOrder

/-- One full poll tick of `check_reminders` over the sheet: every row
is processed with its own send oracle; a failure inside one row is
caught by the per-row `except` and the scan continues. -/
def check_reminders (now : Int) (sendOk : Nat → ReminderKind → Bool)
    (rows : List RecordState) : List (RecordState × List Effect) :=
  rows.enum.map (fun p => processRecord now (sendOk p.1) p.2)

/-- Reminder kinds for which `send_reminder` was invoked during one
row's processing, in order. -/
def dispatchedKinds (effs : List Effect) : List ReminderKind :=
  effs.filterMap (fun e =>
    match e with
    | Effect.dispatch k _ => some k
    | _ => none)

/-- The first kind in `kindOrder`-prefix `ks` whose entry is non-null
and inside the window (specification-side characterisation of the
loop's stopping point). -/
def firstDueIn (now : Int) (sched : Schedule) : List ReminderKind → Option ReminderKind
  | [] => none
  | k :: rest => if dueAt now (sched.get k) then some k else firstDueIn now sched rest

/-- The first due kind of a schedule in the fixed priority order. -/
def firstDue (now : Int) (sched : Schedule) : Option ReminderKind :=
  firstDueIn now sched kindOrder

/-- The first due kind of a whole row: `none` when the row is skipped
(unbound or header chat id, empty schedule cell). -/
def recordFirstDue (now : Int) (r : RecordState) : Option ReminderKind :=
  match r.chat_id with
  | none => none
  | some cid =>
    if cid = "chat_id" then none
    else
      match r.sent_reminders with
      | none => none
      | some sched => firstDue now sched

/-- Position of a kind in the fixed priority order. -/
def kindIndex : ReminderKind → Nat
  | ReminderKind.day_before => 0
  | ReminderKind.hour_before => 1
  | ReminderKind.today => 2

/-! ## Response Handler (`button_callback`, lines 315-365) -/

/-- Python's `callback_data.split('_')` on the character list. -/
def splitUnderscoreAux : List Char → List (List Char)
  | [] => [[]]
  | c :: rest =>
    let r := splitUnderscoreAux rest
    if c = '_' then [] :: r
    else
      match r with
      | [] => [[c]]
      | w :: ws => (c :: w) :: ws

/-- `callback_data.split('_')`. -/
def pySplitUnderscore (s : String) : List String :=
  (splitUnderscoreAux s.data).map (fun w => ⟨w⟩)

/-- Python's `'_'.join(parts)`. -/
def pyJoinUnderscore : List String → String
  | [] => ""
  | [w] => w
  | w :: ws => w ++ "_" ++ pyJoinUnderscore ws

/-- The whole modelled sheet: one `RecordState` per row. -/
structure SheetState where
  rows : List RecordState
deriving DecidableEq, Repr

/-- `sheet.find(cid, in_column=COLUMN_CHAT_ID)`: index of the first
row whose chat id cell equals `cid`. -/
def findByChat (cid : String) : List RecordState → Option Nat
  | [] => none
  | r :: rest =>
    if r.chat_id = some cid then some 0
    else (findByChat cid rest).map (fun i => i + 1)

/-- Replace row `i` by `f` applied to it; out-of-range leaves the
sheet unchanged. -/
def updateRow (rows : List RecordState) (i : Nat) (f : RecordState → RecordState) :
    List RecordState :=
  match rows.get? i with
  | none => rows
  | some r => rows.set i (f r)

/-- Column chosen in `button_callback` from the parsed reminder type:
`day_before` → 9, `hour_before` → 10, anything else → 11. -/
def responseColumn (reminder_type : String) : Nat :=
  if reminder_type = "day_before" then COLUMN_DAY_BEFORE
  else if reminder_type = "hour_before" then COLUMN_HOUR_BEFORE
  else COLUMN_TODAY

/-- Errors raised (as `ValueError`) inside `button_callback`'s `try`. -/
inductive CallbackErr
  | invalidFormat (callback_data : String)
  | unknownRecipient (cid : String)
deriving DecidableEq, Repr

/-- Acknowledgment sent on a "yes" answer. -/
def ackYes : String := "Спасибо за ваш ответ! Ждем вас на собеседовании."

/-- Acknowledgment sent on a "no" answer. -/
def ackNo : String := "Спасибо за ваш ответ. Пожалуйста, свяжитесь с HR для переноса собеседования."

/-- Generic message shown when the handler's `except` branch runs. -/
def ackErr : String := "Произошла ошибка при обновлении данных. Пожалуйста, свяжитесь с HR."

/-- `response = parts[1]` of the callback token. -/
def cbResponse (callback_data : String) : String :=
  (pySplitUnderscore callback_data).getD 1 ""

/-- `reminder_type = '_'.join(parts[2:])` of the callback token. -/
def cbReminderType (callback_data : String) : String :=
  pyJoinUnderscore ((pySplitUnderscore callback_data).drop 2)

/-- The single cell write of `button_callback` on the found row:
`sheet.update_cell(row, column, "Да"/"Нет")` with the column picked
from the parsed reminder type. -/
def cbWrite (callback_data : String) (r : RecordState) : RecordState :=
  r.updateCol (responseColumn (cbReminderType callback_data))
    (if cbResponse callback_data = "yes" then "Да" else "Нет")

/-- Acknowledgment text chosen from the parsed answer. -/
def cbAck (callback_data : String) : String :=
  if cbResponse callback_data = "yes" then ackYes else ackNo

/-- Body of `button_callback`'s `try` block: parse the callback token
(raising on fewer than three parts), find the row by chat id (raising
when absent), write "Да"/"Нет" into the kind's outcome column, and
return the new sheet plus the acknowledgment text. -/
def button_callback_core (cid : String) (callback_data : String) (s : SheetState) :
    Except CallbackErr (SheetState × String) :=
  if (pySplitUnderscore callback_data).length < 3 then
    Except.error (CallbackErr.invalidFormat callback_data)
  else
    match findByChat cid s.rows with
    | none => Except.error (CallbackErr.unknownRecipient cid)
    | some row =>
      Except.ok (⟨updateRow s.rows row (cbWrite callback_data)⟩, cbAck callback_data)

/-- `button_callback` with its `except` handler: an internal error is
logged and the user shown `ackErr`; no sheet mutation happens on the
error path. -/
def button_callback (cid : String) (callback_data : String) (s : SheetState) :
    SheetState × String :=
  match button_callback_core cid callback_data s with
  | Except.ok res => res
  | Except.error _ => (s, ackErr)

/-! ## Helper lemmas about the poller loop -/

/-- The kind loop is determined by the first due kind of the scanned
prefix: no due kind leaves the row untouched; a due kind with a
successful send produces the three effects in program order; a failed
send produces only the dispatch attempt. -/
theorem runKinds_eq_firstDueIn (now : Int) (sendOk : ReminderKind → Bool)
    (r : RecordState) (sched : Schedule) (ks : List ReminderKind) :
    runKinds now sendOk r sched ks =
      match firstDueIn now sched ks with
      | none => (r, [])
      | some k =>
        if sendOk k then
          ({ r.updateCol (reminderColumnOf k) sentMarker with
              sent_reminders := some (sched.set k none) },
           [Effect.dispatch k true,
            Effect.writeCell (reminderColumnOf k) sentMarker,
            Effect.writeSchedule (sched.set k none)])
        else (r, [Effect.dispatch k false]) := by
  induction ks with
  | nil => rfl
  | cons k rest ih =>
      cases hd : dueAt now (sched.get k) with
      | false => simp [runKinds, firstDueIn, hd, ih]
      | true => simp [runKinds, firstDueIn, hd]

/-- Kind loop with a first due kind and a successful send. -/
theorem runKinds_of_firstDue_ok (now : Int) (sendOk : ReminderKind → Bool)
    (r : RecordState) (sched : Schedule) (k : ReminderKind)
    (hfd : firstDueIn now sched kindOrder = some k) (hok : sendOk k = true) :
    runKinds now sendOk r sched kindOrder =
      ({ r.updateCol (reminderColumnOf k) sentMarker with
          sent_reminders := some (sched.set k none) },
       [Effect.dispatch k true,
        Effect.writeCell (reminderColumnOf k) sentMarker,
        Effect.writeSchedule (sched.set k none)]) := by
  rw [runKinds_eq_firstDueIn, hfd]
  simp [hok]

/-- Kind loop with a first due kind and a failing send. -/
theorem runKinds_of_firstDue_fail (now : Int) (sendOk : ReminderKind → Bool)
    (r : RecordState) (sched : Schedule) (k : ReminderKind)
    (hfd : firstDueIn now sched kindOrder = some k) (hfail : sendOk k = false) :
    runKinds now sendOk r sched kindOrder = (r, [Effect.dispatch k false]) := by
  rw [runKinds_eq_firstDueIn, hfd]
  simp [hfail]

/-- A kind returned by `firstDueIn` passes the due test. -/
theorem firstDueIn_due (now : Int) (sched : Schedule) (ks : List ReminderKind)
    (k : ReminderKind) (h : firstDueIn now sched ks = some k) :
    dueAt now (sched.get k) = true := by
  induction ks with
  | nil => simp [firstDueIn] at h
  | cons a rest ih =>
      rw [firstDueIn] at h
      by_cases hd : dueAt now (sched.get a) = true
      · rw [if_pos hd] at h
        cases h
        exact hd
      · rw [if_neg hd] at h
        exact ih h

/-- Under the hypotheses that make the row scanned, `processRecord`
reduces to the kind loop. -/
theorem processRecord_eq_runKinds (now : Int) (sendOk : ReminderKind → Bool)
    (r : RecordState) (cid : String) (sched : Schedule)
    (hc : r.chat_id = some cid) (hh : cid ≠ "chat_id")
    (hs : r.sent_reminders = some sched) :
    processRecord now sendOk r = runKinds now sendOk r sched kindOrder := by
  simp [processRecord, hc, hh, hs]

/-- Reading back the outcome cell just written. -/
theorem readCol_updateCol_self (r : RecordState) (k : ReminderKind) (v : String) :
    (r.updateCol (reminderColumnOf k) v).readCol (reminderColumnOf k) = v := by
  cases k <;> rfl

/-- Overwriting the schedule cell leaves the outcome cells alone. -/
theorem readCol_set_sent (r : RecordState) (v : Option Schedule) (c : Nat) :
    RecordState.readCol { r with sent_reminders := v } c = r.readCol c := by
  rfl

/-- C2: when a reminder kind `k` is found due for a scanned record and
the send succeeds, the tick performs exactly, in order: (1) the
dispatcher invocation for `k`; (2) the persisted write of the sent
marker "Отправлено" into `k`'s outcome column; (3) the separate
persisted write of the schedule field with entry `k` nulled.  The
resulting row carries the marker in `k`'s outcome cell and the nulled
schedule. -/
theorem dispatch_transition_sequence (now : Int) (sendOk : ReminderKind → Bool)
    (r : RecordState) (cid : String) (sched : Schedule) (k : ReminderKind)
    (hc : r.chat_id = some cid) (hh : cid ≠ "chat_id")
    (hs : r.sent_reminders = some sched)
    (hfd : firstDue now sched = some k) (hok : sendOk k = true) :
    (processRecord now sendOk r).2 =
      [Effect.dispatch k true,
       Effect.writeCell (reminderColumnOf k) sentMarker,
       Effect.writeSchedule (sched.set k none)] ∧
    ((processRecord now sendOk r).1).readCol (reminderColumnOf k) = sentMarker ∧
    ((processRecord now sendOk r).1).sent_reminders = some (sched.set k none) := by
  rw [firstDue] at hfd
  rw [processRecord_eq_runKinds now sendOk r cid sched hc hh hs,
      runKinds_of_firstDue_ok now sendOk r sched k hfd hok]
  refine ⟨rfl, ?_, rfl⟩
  rw [readCol_set_sent, readCol_updateCol_self]

/-- C2 witness: a concrete scanned row whose `day_before` entry is 10
seconds in the past produces the three ordered effects. -/
theorem dispatch_transition_sequence_witness :
    (processRecord 1010 (fun _ => true)
        (RecordState.mk (some "5") none "" (some (Schedule.mk (some 1000) none none)) "" "" "")).2 =
      [Effect.dispatch ReminderKind.day_before true,
       Effect.writeCell (reminderColumnOf ReminderKind.day_before) sentMarker,
       Effect.writeSchedule ((Schedule.mk (some 1000) none none).set ReminderKind.day_before none)] ∧
    ((processRecord 1010 (fun _ => true)
        (RecordState.mk (some "5") none "" (some (Schedule.mk (some 1000) none none)) "" "" "")).1).readCol
        (reminderColumnOf ReminderKind.day_before) = sentMarker ∧
    ((processRecord 1010 (fun _ => true)
        (RecordState.mk (some "5") none "" (some (Schedule.mk (some 1000) none none)) "" "" "")).1).sent_reminders =
      some ((Schedule.mk (some 1000) none none).set ReminderKind.day_before none) :=
  dispatch_transition_sequence 1010 (fun _ => true)
    (RecordState.mk (some "5") none "" (some (Schedule.mk (some 1000) none none)) "" "" "")
    "5" (Schedule.mk (some 1000) none none) ReminderKind.day_before
    rfl (by decide) rfl (by decide) rfl

/-- The kinds actually dispatched in one row's processing are exactly
the first due kind of that row, if any (shared helper). -/
theorem dispatchedKinds_eq_recordFirstDue (now : Int) (sendOk : ReminderKind → Bool)
    (r : RecordState) :
    dispatchedKinds (processRecord now sendOk r).2 = (recordFirstDue now r).toList := by
  unfold processRecord recordFirstDue
  cases hcid : r.chat_id with
  | none => rfl
  | some cid =>
      by_cases hh : cid = "chat_id"
      · simp [hh, dispatchedKinds]
      · simp only [if_neg hh]
        cases hs : r.sent_reminders with
        | none => rfl
        | some sched =>
            show dispatchedKinds (runKinds now sendOk r sched kindOrder).2 =
              (firstDue now sched).toList
            rw [firstDue]
            cases hfd : firstDueIn now sched kindOrder with
            | none =>
                rw [runKinds_eq_firstDueIn, hfd]
                rfl
            | some k =>
                cases hok : sendOk k with
                | true =>
                    rw [runKinds_of_firstDue_ok now sendOk r sched k hfd hok]
                    simp [dispatchedKinds]
                | false =>
                    rw [runKinds_of_firstDue_fail now sendOk r sched k hfd hok]
                    simp [dispatchedKinds]

/-- C3: on any single poll tick, a record's dispatched kinds are
exactly the first due kind (if any) in the fixed priority order
`day_before, hour_before, today`; in particular at most one reminder
is dispatched per record per tick, any other simultaneously-due kind
being deferred. -/
theorem at_most_one_dispatch_per_tick (now : Int) (sendOk : ReminderKind → Bool)
    (r : RecordState) :
    dispatchedKinds (processRecord now sendOk r).2 = (recordFirstDue now r).toList ∧
    (dispatchedKinds (processRecord now sendOk r).2).length ≤ 1 := by
  refine ⟨dispatchedKinds_eq_recordFirstDue now sendOk r, ?_⟩
  rw [dispatchedKinds_eq_recordFirstDue now sendOk r]
  cases recordFirstDue now r <;> simp

/-- C5: a transport failure in `send_reminder` raises out of the kind
loop into the per-row handler: the row's state is fully preserved (no
sent marker, schedule cell untouched), the only effect is the failed
dispatch attempt, and the due entry stays non-null, so the reminder
remains eligible on a later tick within the window. -/
theorem failed_dispatch_preserves_state (now : Int) (sendOk : ReminderKind → Bool)
    (r : RecordState) (cid : String) (sched : Schedule) (k : ReminderKind)
    (hc : r.chat_id = some cid) (hh : cid ≠ "chat_id")
    (hs : r.sent_reminders = some sched)
    (hfd : firstDue now sched = some k) (hfail : sendOk k = false) :
    processRecord now sendOk r = (r, [Effect.dispatch k false]) ∧
    sched.get k ≠ none := by
  constructor
  · rw [firstDue] at hfd
    rw [processRecord_eq_runKinds now sendOk r cid sched hc hh hs,
        runKinds_of_firstDue_fail now sendOk r sched k hfd hfail]
  · have hdue := firstDueIn_due now sched kindOrder k (by rw [firstDue] at hfd; exact hfd)
    intro hnone
    rw [hnone] at hdue
    simp [dueAt] at hdue

/-- Quantification over the three reminder kinds is a finite
conjunction. -/
theorem forall_kind_iff (P : ReminderKind → Prop) :
    (∀ j, P j) ↔
      P ReminderKind.day_before ∧ P ReminderKind.hour_before ∧ P ReminderKind.today := by
  constructor
  · intro h
    exact ⟨h _, h _, h _⟩
  · rintro ⟨h1, h2, h3⟩ j
    cases j
    · exact h1
    · exact h2
    · exact h3

/-- `firstDue` picks exactly the due kind with no due predecessor in
the fixed priority order. -/
theorem firstDue_eq_iff (now : Int) (sched : Schedule) (k : ReminderKind) :
    firstDue now sched = some k ↔
      (dueAt now (sched.get k) = true ∧
       ∀ j, kindIndex j < kindIndex k → dueAt now (sched.get j) = false) := by
  cases hda : dueAt now (sched.get ReminderKind.day_before) <;>
    cases hhb : dueAt now (sched.get ReminderKind.hour_before) <;>
      cases htd : dueAt now (sched.get ReminderKind.today) <;>
        cases k <;>
          simp [firstDue, firstDueIn, kindOrder, kindIndex, forall_kind_iff, hda, hhb, htd]

/-- C1 (amended): for a scanned record, kind `k` is dispatched at poll
time `now` iff its entry is non-null, `|now - entry| <= 120`, and no
earlier kind in the priority order `day_before, hour_before, today` is
also due; the claim's unconditional version fails when an earlier kind
is simultaneously due (see the counterexample). -/
theorem dispatched_iff_first_due (now : Int) (sendOk : ReminderKind → Bool)
    (r : RecordState) (cid : String) (sched : Schedule)
    (hc : r.chat_id = some cid) (hh : cid ≠ "chat_id")
    (hs : r.sent_reminders = some sched) (k : ReminderKind) :
    k ∈ dispatchedKinds (processRecord now sendOk r).2 ↔
      (dueAt now (sched.get k) = true ∧
       ∀ j, kindIndex j < kindIndex k → dueAt now (sched.get j) = false) := by
  rw [← firstDue_eq_iff, dispatchedKinds_eq_recordFirstDue now sendOk r]
  have hrec : recordFirstDue now r = firstDue now sched := by
    simp [recordFirstDue, hc, hh, hs]
  rw [hrec]
  cases firstDue now sched with
  | none => simp
  | some a => simp [eq_comm]

/-- C1 witness: for the concrete row of the C2 witness, `day_before`
is dispatched and the characterisation holds. -/
theorem dispatched_iff_first_due_witness :
    ReminderKind.day_before ∈ dispatchedKinds (processRecord 1010 (fun _ => true)
        (RecordState.mk (some "5") none ""
          (some (Schedule.mk (some 1000) none none)) "" "" "")).2 ↔
      (dueAt 1010 ((Schedule.mk (some 1000) none none).get ReminderKind.day_before) = true ∧
       ∀ j, kindIndex j < kindIndex ReminderKind.day_before →
         dueAt 1010 ((Schedule.mk (some 1000) none none).get j) = false) :=
  dispatched_iff_first_due 1010 (fun _ => true)
    (RecordState.mk (some "5") none ""
      (some (Schedule.mk (some 1000) none none)) "" "" "")
    "5" (Schedule.mk (some 1000) none none)
    rfl (by decide) rfl ReminderKind.day_before

/-- C1 counterexample: a bound record whose `day_before` entry is 100
and `hour_before` entry is 0, polled at `now = 119`: `hour_before` is
non-null and 119 seconds past its instant (inside the window), yet the
tick dispatches only `day_before` — refuting "dispatched iff non-null
and within 120 seconds" and the "119 seconds past → dispatched"
particular. -/
theorem dispatched_iff_first_due_counterexample :
    dueAt 119 ((Schedule.mk (some 100) (some 0) none).get ReminderKind.hour_before) = true ∧
    dispatchedKinds (processRecord 119 (fun _ => true)
        (RecordState.mk (some "1") none ""
          (some (Schedule.mk (some 100) (some 0) none)) "" "" "")).2 =
      [ReminderKind.day_before] := by
  decide

/-- C5 witness: the concrete row of the C2 witness, with a failing
transport, is returned unchanged with only the failed attempt
recorded. -/
theorem failed_dispatch_preserves_state_witness :
    processRecord 1010 (fun _ => false)
        (RecordState.mk (some "5") none "" (some (Schedule.mk (some 1000) none none)) "" "" "") =
      (RecordState.mk (some "5") none "" (some (Schedule.mk (some 1000) none none)) "" "" "",
       [Effect.dispatch ReminderKind.day_before false]) ∧
    (Schedule.mk (some 1000) none none).get ReminderKind.day_before ≠ none :=
  failed_dispatch_preserves_state 1010 (fun _ => false)
    (RecordState.mk (some "5") none "" (some (Schedule.mk (some 1000) none none)) "" "" "")
    "5" (Schedule.mk (some 1000) none none) ReminderKind.day_before
    rfl (by decide) rfl (by decide) rfl

/-- C4: for every appointment instant parsed from the accepted
textual formats, the schedule written by `handle_contact` is exactly
`appointmentAt - 24h` for `day_before`, `appointmentAt - 1h` for
`hour_before`, and `appointmentAt` for `today`. -/
theorem schedule_offsets (chat : String) (r : RecordState) (t : Int)
    (h : r.appointment = some t) :
    ((handle_contact chat r).1).sent_reminders =
      some (Schedule.mk (some (t - 24 * 60 * 60)) (some (t - 60 * 60)) (some t)) := by
  simp only [handle_contact, h]
  simp [computeSchedule, timedelta_days, timedelta_hours]

/-- C4 witness: a concrete appointment at 100000 seconds. -/
theorem schedule_offsets_witness :
    ((handle_contact "9" (RecordState.mk none (some 100000) "" none "" "" "")).1).sent_reminders =
      some (Schedule.mk (some (100000 - 24 * 60 * 60)) (some (100000 - 60 * 60)) (some 100000)) :=
  schedule_offsets "9" (RecordState.mk none (some 100000) "" none "" "" "") 100000 rfl

/-- C6 (amended): `handle_contact` recomputes and persists the
schedule on every intake event whose row has a parseable date/time,
regardless of the previously stored schedule value; a repeated intake
for the same recipient therefore overwrites the stored schedule
(resurrecting entries already nulled by dispatch). -/
theorem intake_overwrites_schedule (chat : String) (r : RecordState) (t : Int)
    (s0 : Option Schedule) (h : r.appointment = some t) :
    ((handle_contact chat { r with sent_reminders := s0 }).1).sent_reminders =
      some (computeSchedule t) := by
  simp [handle_contact, h]

/-- C6 witness: two different previously stored schedule cells both
get overwritten with the recomputed schedule. -/
theorem intake_overwrites_schedule_witness :
    ((handle_contact "7" { RecordState.mk none (some 172800) "" none "" "" "" with
        sent_reminders := some (Schedule.mk none none none) }).1).sent_reminders =
      some (computeSchedule 172800) :=
  intake_overwrites_schedule "7" (RecordState.mk none (some 172800) "" none "" "" "")
    172800 (some (Schedule.mk none none none)) rfl

/-- C6 counterexample: bind the channel (first intake), dispatch the
`day_before` reminder on a tick (nulling its entry), then process a
repeated intake event for the same recipient: the persisted schedule
changes — refuting "computed and persisted exactly once ... never
recomputed or overwritten afterward (in particular, not by a repeated
intake event)". -/
theorem intake_overwrites_schedule_counterexample :
    ((handle_contact "7" ((processRecord 86400 (fun _ => true)
        ((handle_contact "7" (RecordState.mk none (some 172800) "" none "" "" "")).1)).1)).1).sent_reminders ≠
      ((processRecord 86400 (fun _ => true)
        ((handle_contact "7" (RecordState.mk none (some 172800) "" none "" "" "")).1)).1).sent_reminders := by
  decide

/-- `List.enumFrom` indexes by offset. -/
theorem enumFrom_get?_eq {α : Type} (l : List α) (n i : Nat) :
    (List.enumFrom n l).get? i = (l.get? i).map (fun a => (n + i, a)) := by
  induction l generalizing n i with
  | nil => simp [List.enumFrom]
  | cons a tl ih =>
      cases i with
      | zero => simp [List.enumFrom]
      | succ j =>
          have hn : n + 1 + j = n + (j + 1) := by omega
          simp [List.enumFrom, ih, hn]

/-- C7: the poll tick evaluates every bound row: the scan's output has
one entry per row and row `i`'s entry is exactly the processing of row
`i` alone, so a failure inside one row (send failure, modelled inside
`processRecord`; a parse failure likewise aborts only that row) can
neither change nor suppress the processing of any other row of the
same tick. -/
theorem per_record_isolation (now : Int) (sendOk : Nat → ReminderKind → Bool)
    (rows : List RecordState) (i : Nat) :
    (check_reminders now sendOk rows).length = rows.length ∧
    (check_reminders now sendOk rows).get? i =
      (rows.get? i).map (fun r => processRecord now (sendOk i) r) := by
  constructor
  · simp [check_reminders]
  · show ((List.enumFrom 0 rows).map (fun p => processRecord now (sendOk p.1) p.2)).get? i =
      (rows.get? i).map (fun r => processRecord now (sendOk i) r)
    rw [List.get?_map, enumFrom_get?_eq]
    cases rows.get? i with
    | none => rfl
    | some r => simp

/-! ## Helper lemmas about the response handler -/

/-- The response-column write never touches the chat id cell. -/
theorem updateCol_chat_id (r : RecordState) (col : Nat) (v : String) :
    (r.updateCol col v).chat_id = r.chat_id := by
  unfold RecordState.updateCol
  split_ifs <;> rfl

/-- Writing the same value to the same cell twice equals writing it
once. -/
theorem updateCol_updateCol (r : RecordState) (col : Nat) (v : String) :
    (r.updateCol col v).updateCol col v = r.updateCol col v := by
  unfold RecordState.updateCol
  split_ifs <;> rfl

/-- Row update below a cons indexes into the tail. -/
theorem updateRow_cons_succ (r : RecordState) (rest : List RecordState) (i : Nat)
    (f : RecordState → RecordState) :
    updateRow (r :: rest) (i + 1) f = r :: updateRow rest i f := by
  simp only [updateRow, List.get?_cons_succ]
  cases rest.get? i <;> rfl

/-- A chat-id-preserving row update does not change which row
`sheet.find` locates. -/
theorem findByChat_updateRow (cid : String) (rows : List RecordState) (i : Nat)
    (f : RecordState → RecordState) (hf : ∀ r, (f r).chat_id = r.chat_id) :
    findByChat cid (updateRow rows i f) = findByChat cid rows := by
  induction rows generalizing i with
  | nil => rfl
  | cons r rest ih =>
      cases i with
      | zero =>
          show findByChat cid (f r :: rest) = findByChat cid (r :: rest)
          simp [findByChat, hf r]
      | succ j =>
          rw [updateRow_cons_succ]
          simp [findByChat, ih j]

/-- Updating the same row twice with an idempotent row function equals
updating it once. -/
theorem updateRow_updateRow (rows : List RecordState) (i : Nat)
    (f : RecordState → RecordState) (hf : ∀ r, f (f r) = f r) :
    updateRow (updateRow rows i f) i f = updateRow rows i f := by
  induction rows generalizing i with
  | nil => rfl
  | cons r rest ih =>
      cases i with
      | zero =>
          show updateRow (f r :: rest) 0 f = f r :: rest
          show f (f r) :: rest = f r :: rest
          rw [hf r]
      | succ j =>
          rw [updateRow_cons_succ, updateRow_cons_succ, ih j]

/-- C8: response handling is idempotent: replaying the very same
response event leaves the sheet and the user-visible reply exactly as
after the first processing (last write wins), and never fails — in
particular also when the targeted outcome cell does not currently hold
the sent marker, since the handler never reads it. -/
theorem response_idempotent (cid callback_data : String) (s : SheetState) :
    button_callback cid callback_data (button_callback cid callback_data s).1 =
      button_callback cid callback_data s := by
  by_cases hlen : (pySplitUnderscore callback_data).length < 3
  · have h1 : button_callback cid callback_data s = (s, ackErr) := by
      simp [button_callback, button_callback_core, hlen]
    rw [h1]
    exact h1
  · cases hfind : findByChat cid s.rows with
    | none =>
        have h1 : button_callback cid callback_data s = (s, ackErr) := by
          simp [button_callback, button_callback_core, hlen, hfind]
        rw [h1]
        exact h1
    | some i =>
        have h1 : button_callback cid callback_data s =
            (⟨updateRow s.rows i (cbWrite callback_data)⟩, cbAck callback_data) := by
          simp [button_callback, button_callback_core, hlen, hfind]
        have hpres : findByChat cid (updateRow s.rows i (cbWrite callback_data)) = some i := by
          rw [findByChat_updateRow cid s.rows i (cbWrite callback_data)
              (fun r => updateCol_chat_id r _ _)]
          exact hfind
        have h2 : button_callback cid callback_data
            (⟨updateRow s.rows i (cbWrite callback_data)⟩ : SheetState) =
            (⟨updateRow (updateRow s.rows i (cbWrite callback_data)) i
                (cbWrite callback_data)⟩, cbAck callback_data) := by
          simp [button_callback, button_callback_core, hlen, hpres]
        rw [h1]
        show button_callback cid callback_data
            (⟨updateRow s.rows i (cbWrite callback_data)⟩ : SheetState) =
          (⟨updateRow s.rows i (cbWrite callback_data)⟩, cbAck callback_data)
        rw [h2, updateRow_updateRow s.rows i (cbWrite callback_data)
            (fun r => updateCol_updateCol r _ _)]

/-- C9: a well-formed response event whose channel matches no row
raises `UnknownRecipient` inside the handler; the `except` branch
turns it into the generic error reply, with no cell written and no
crash. -/
theorem unknown_recipient_no_mutation (cid callback_data : String) (s : SheetState)
    (hlen : ¬ (pySplitUnderscore callback_data).length < 3)
    (hfind : findByChat cid s.rows = none) :
    button_callback_core cid callback_data s =
      Except.error (CallbackErr.unknownRecipient cid) ∧
    button_callback cid callback_data s = (s, ackErr) := by
  have h : button_callback_core cid callback_data s =
      Except.error (CallbackErr.unknownRecipient cid) := by
    simp [button_callback_core, hlen, hfind]
  exact ⟨h, by simp [button_callback, h]⟩

/-- C9 witness: an empty sheet and the token `confirm_yes_today`. -/
theorem unknown_recipient_no_mutation_witness :
    button_callback_core "99" "confirm_yes_today" (SheetState.mk []) =
      Except.error (CallbackErr.unknownRecipient "99") ∧
    button_callback "99" "confirm_yes_today" (SheetState.mk []) =
      (SheetState.mk [], ackErr) :=
  unknown_recipient_no_mutation "99" "confirm_yes_today" (SheetState.mk [])
    (by decide) rfl

/-- C10: a callback token with at least three underscore-separated
parts whose joined reminder-kind tag is neither `day_before` nor
`hour_before` — in particular any unrecognized kind string — is not
rejected: the handler records the answer in the `today` (at-time)
outcome column, column 11. -/
theorem unrecognized_kind_written_to_today (cid callback_data : String)
    (s : SheetState) (i : Nat)
    (hlen : ¬ (pySplitUnderscore callback_data).length < 3)
    (hk1 : cbReminderType callback_data ≠ "day_before")
    (hk2 : cbReminderType callback_data ≠ "hour_before")
    (hfind : findByChat cid s.rows = some i) :
    button_callback_core cid callback_data s =
      Except.ok (⟨updateRow s.rows i (fun r => r.updateCol COLUMN_TODAY
        (if cbResponse callback_data = "yes" then "Да" else "Нет"))⟩,
        cbAck callback_data) := by
  have hcol : responseColumn (cbReminderType callback_data) = COLUMN_TODAY := by
    simp [responseColumn, hk1, hk2]
  have hfun : cbWrite callback_data = fun r => r.updateCol COLUMN_TODAY
      (if cbResponse callback_data = "yes" then "Да" else "Нет") := by
    funext r
    rw [cbWrite, hcol]
  simp [button_callback_core, hlen, hfind, hfun]

/-- C10 witness: the malformed kind tag `sometime` lands in the
`today` column of the matched row. -/
theorem unrecognized_kind_written_to_today_witness :
    button_callback_core "5" "confirm_yes_sometime"
    (SheetState.mk [RecordState.mk (some "5") none "" none "" "" ""]) =
      Except.ok (⟨updateRow (SheetState.mk [RecordState.mk (some "5") none "" none "" "" ""]).rows 0 (fun r => r.updateCol COLUMN_TODAY
        (if cbResponse "confirm_yes_sometime" = "yes" then "Да" else "Нет"))⟩,
        cbAck "confirm_yes_sometime") :=
  unrecognized_kind_written_to_today "5" "confirm_yes_sometime"
    (SheetState.mk [RecordState.mk (some "5") none "" none "" "" ""]) 0
    (by decide) (by decide) (by decide) (by decide)

end HelpBoot
